import Mathlib

/-!
Shallow embedding of the cdumay_yaml crate: a stateless converter that
turns raw serde_yaml errors into structured typed errors, together with
the three call shapes of the convert_yaml_result sugar
(src/src/errors.rs and src/src/macros.rs).

The external cdumay_core collaborator (the base error type, the kind
registry expansion and the ErrorConverter trait default convert_error)
is not part of src/; its pieces are modelled from the spec and the
repository's test expectations, and are marked as such.
-/

set_option autoImplicit false

namespace CdumayYaml

/-- Structured context values, mirroring serde_value::Value: string,
number, boolean, sequence, mapping, or null. -/
inductive Value : Type where
  | str : String → Value
  | int : Int → Value
  | bool : Bool → Value
  | seq : List Value → Value
  | map : List (String × Value) → Value
  | unit : Value

/-- A context map models Rust's BTreeMap of String keys to Values as an
association list kept sorted by key with unique keys. -/
abbrev ContextMap : Type := List (String × Value)

/-- BTreeMap insert: places the binding at its key-ordered position and
replaces any existing binding for the same key. -/
def ContextMap.insert : ContextMap → String → Value → ContextMap
  | [], k, v => [(k, v)]
  | (k0, v0) :: rest, k, v =>
    if k < k0 then (k, v) :: (k0, v0) :: rest
    else if k = k0 then (k, v) :: rest
    else (k0, v0) :: ContextMap.insert rest k v

/-- A raw serde_yaml::Error, opaque to this crate beyond its Display
rendering (the string its to_string produces). -/
structure RawError : Type where
  rendering : String

/-- Modelled from the spec: the cdumay_core base error type (an external
collaborator absent from src/). A typed error carries a unique string
code, an HTTP status, the kind description, a message and a details map. -/
structure Error : Type where
  code : String
  status : Nat
  kind : String
  message : String
  details : ContextMap

/-- Modelled from the spec: the builder with_message replaces the
message of a typed error. -/
def Error.with_message (e : Error) (text : String) : Error :=
  { e with message := text }

/-- Modelled from the spec: the builder with_details replaces the
details of a typed error. -/
def Error.with_details (e : Error) (context : ContextMap) : Error :=
  { e with details := context }

/-- The single registered kind, from src/src/errors.rs lines 98-100:
YamlData = (400, "Invalid YAML data"). -/
def YamlData : Nat × String := (400, "Invalid YAML data")

/-- The error family bound to YamlData, from src/src/errors.rs lines
102-104. Modelled from the spec: the code is the kind-derived string with
a sequence discriminator, e.g. "YAML-00001" (the exact suffix is out of
scope per the spec); status and kind come from the YamlData declaration. -/
def DataError.new : Error :=
  { code := "YAML-00001", status := YamlData.1, kind := YamlData.2,
    message := YamlData.2, details := [] }

/-- YamlErrorConverter::convert from src/src/errors.rs lines 121-123:
discards the raw error and returns
DataError::new().with_message(text).with_details(context). -/
def YamlErrorConverter.convert (_ : RawError) (text : String)
    (context : ContextMap) : Error :=
  (DataError.new.with_message text).with_details context

/-- Modelled from the spec: cdumay_core::ErrorConverter::convert_error,
the trait entry point absent from src/. Per the spec and the repository
tests: the message falls back to the raw error's textual rendering when
none is supplied, a non-empty context is augmented with an "origin" entry
recording the raw error's rendering, an empty context is left empty, and
the kind-specific convert builds the typed error. -/
def YamlErrorConverter.convert_error (err : RawError) (text : Option String)
    (context : ContextMap) : Error :=
  let message := text.getD err.rendering
  let details :=
    if context.isEmpty then context
    else ContextMap.insert context "origin" (Value.str err.rendering)
  YamlErrorConverter.convert err message details

/-- The three-argument arm of convert_yaml_result (src/src/macros.rs
lines 4-8): result.map_err with convert_error, Some(text.to_string())
and the supplied context. -/
def convert_yaml_result3 {α : Type} (result : Except RawError α)
    (context : ContextMap) (text : String) : Except Error α :=
  result.mapError (fun err => YamlErrorConverter.convert_error err (some text) context)

/-- The two-argument arm of convert_yaml_result (src/src/macros.rs lines
9-13): result.map_err with convert_error, None and the supplied context. -/
def convert_yaml_result2 {α : Type} (result : Except RawError α)
    (context : ContextMap) : Except Error α :=
  result.mapError (fun err => YamlErrorConverter.convert_error err none context)

/-- The one-argument arm of convert_yaml_result (src/src/macros.rs lines
14-18): result.map_err with convert_error, None and a fresh empty map. -/
def convert_yaml_result1 {α : Type} (result : Except RawError α) :
    Except Error α :=
  result.mapError (fun err => YamlErrorConverter.convert_error err none [])

/-- Spec-side description of one default-filled direct conversion: pass a
success through unchanged and apply the Converter with the given optional
message and context on the failure branch. -/
def specConvert {α : Type} (result : Except RawError α) (text : Option String)
    (context : ContextMap) : Except Error α :=
  match result with
  | Except.ok a => Except.ok a
  | Except.error e => Except.error (YamlErrorConverter.convert_error e text context)

theorem ContextMap.mem_insert_self (m : ContextMap) (k : String) (v : Value) :
    (k, v) ∈ ContextMap.insert m k v := by
  induction m with
  | nil => exact List.mem_singleton.mpr rfl
  | cons p rest ih =>
    obtain ⟨k0, v0⟩ := p
    by_cases h1 : k < k0
    · simp [ContextMap.insert, h1]
    · by_cases h2 : k = k0
      · simp [ContextMap.insert, h1, h2]
      · simp only [ContextMap.insert, if_neg h1, if_neg h2, List.mem_cons]
        exact Or.inr ih

theorem ContextMap.mem_insert_of_ne {m : ContextMap} {k : String} {v : Value}
    (k0 : String) (v0 : Value) (hm : (k, v) ∈ m) (hne : k ≠ k0) :
    (k, v) ∈ ContextMap.insert m k0 v0 := by
  induction m with
  | nil => cases hm
  | cons p rest ih =>
    obtain ⟨k1, v1⟩ := p
    by_cases h1 : k0 < k1
    · simp only [ContextMap.insert, if_pos h1, List.mem_cons]
      rcases List.mem_cons.mp hm with h | h
      · exact Or.inr (Or.inl h)
      · exact Or.inr (Or.inr h)
    · by_cases h2 : k0 = k1
      · simp only [ContextMap.insert, if_neg h1, if_pos h2, List.mem_cons]
        rcases List.mem_cons.mp hm with h | h
        · exact absurd (congrArg Prod.fst h) (by simpa [h2] using hne)
        · exact Or.inr h
      · simp only [ContextMap.insert, if_neg h1, if_neg h2, List.mem_cons]
        rcases List.mem_cons.mp hm with h | h
        · exact Or.inl h
        · exact Or.inr (ih h)

/-- The details of a conversion: the supplied context, augmented with an
"origin" entry when non-empty. -/
theorem convert_error_details (e : RawError) (text : Option String)
    (ctx : ContextMap) :
    (YamlErrorConverter.convert_error e text ctx).details =
      if ctx.isEmpty then ctx
      else ContextMap.insert ctx "origin" (Value.str e.rendering) := rfl

/-- C1: for every raw YAML error, every message (supplied or omitted) and
every context map, the typed error produced by the converter — directly
via convert or convert_error, or through any of the three call shapes of
convert_yaml_result — carries HTTP status 400 and kind description
"Invalid YAML data". -/
theorem claim_C1 (e : RawError) (text : String) (otext : Option String)
    (ctx : ContextMap) :
    ((YamlErrorConverter.convert e text ctx).status = 400
      ∧ (YamlErrorConverter.convert e text ctx).kind = "Invalid YAML data")
    ∧ ((YamlErrorConverter.convert_error e otext ctx).status = 400
      ∧ (YamlErrorConverter.convert_error e otext ctx).kind = "Invalid YAML data")
    ∧ (∃ r, convert_yaml_result1 (Except.error e : Except RawError Unit) = Except.error r
        ∧ r.status = 400 ∧ r.kind = "Invalid YAML data")
    ∧ (∃ r, convert_yaml_result2 (Except.error e : Except RawError Unit) ctx = Except.error r
        ∧ r.status = 400 ∧ r.kind = "Invalid YAML data")
    ∧ (∃ r, convert_yaml_result3 (Except.error e : Except RawError Unit) ctx text = Except.error r
        ∧ r.status = 400 ∧ r.kind = "Invalid YAML data") :=
  ⟨⟨rfl, rfl⟩, ⟨rfl, rfl⟩, ⟨_, rfl, rfl, rfl⟩, ⟨_, rfl, rfl, rfl⟩, ⟨_, rfl, rfl, rfl⟩⟩

/-- C2: whenever a message is supplied — to convert directly, to
convert_error as Some, or through the three-argument call shape — the
resulting typed error's message equals exactly that supplied message. -/
theorem claim_C2 (e : RawError) (text : String) (ctx : ContextMap) :
    (YamlErrorConverter.convert e text ctx).message = text
    ∧ (YamlErrorConverter.convert_error e (some text) ctx).message = text
    ∧ (∃ r, convert_yaml_result3 (Except.error e : Except RawError Unit) ctx text = Except.error r
        ∧ r.message = text) :=
  ⟨rfl, rfl, ⟨_, rfl, rfl⟩⟩

/-- C3: when no message is supplied — convert_error with None, or the
one- and two-argument call shapes — the resulting typed error's message
equals the textual rendering of the underlying raw error. -/
theorem claim_C3 (e : RawError) (ctx : ContextMap) :
    (YamlErrorConverter.convert_error e none ctx).message = e.rendering
    ∧ (∃ r, convert_yaml_result1 (Except.error e : Except RawError Unit) = Except.error r
        ∧ r.message = e.rendering)
    ∧ (∃ r, convert_yaml_result2 (Except.error e : Except RawError Unit) ctx = Except.error r
        ∧ r.message = e.rendering) :=
  ⟨rfl, ⟨_, rfl, rfl⟩, ⟨_, rfl, rfl⟩⟩

/-- C4: all three call shapes return the success value unchanged whenever
the input is Ok, and invoke the converter only on the Err branch; both
sides of each equation live in Except with the same success type α, so
the success type of the returned result equals that of the wrapped one. -/
theorem claim_C4 {α : Type} (a : α) (e : RawError) (ctx : ContextMap)
    (text : String) :
    (convert_yaml_result1 (Except.ok a : Except RawError α) = Except.ok a
      ∧ convert_yaml_result2 (Except.ok a : Except RawError α) ctx = Except.ok a
      ∧ convert_yaml_result3 (Except.ok a : Except RawError α) ctx text = Except.ok a)
    ∧ (convert_yaml_result1 (Except.error e : Except RawError α)
        = Except.error (YamlErrorConverter.convert_error e none [])
      ∧ convert_yaml_result2 (Except.error e : Except RawError α) ctx
        = Except.error (YamlErrorConverter.convert_error e none ctx)
      ∧ convert_yaml_result3 (Except.error e : Except RawError α) ctx text
        = Except.error (YamlErrorConverter.convert_error e (some text) ctx)) :=
  ⟨⟨rfl, rfl, rfl⟩, ⟨rfl, rfl, rfl⟩⟩

/-- C5: each call shape is equivalent to one default-filled direct
conversion: the one-argument shape uses no message and an empty context,
the two-argument shape uses no message and the supplied context, and the
three-argument shape uses the supplied message and context. -/
theorem claim_C5 {α : Type} (result : Except RawError α) (ctx : ContextMap)
    (text : String) :
    convert_yaml_result1 result = specConvert result none []
    ∧ convert_yaml_result2 result ctx = specConvert result none ctx
    ∧ convert_yaml_result3 result ctx text = specConvert result (some text) ctx := by
  cases result <;> exact ⟨rfl, rfl, rfl⟩

/-- C6 as stated fails: when the caller-supplied context itself binds the
key "origin", the conversion overwrites that binding with the raw error's
rendering, so the caller-supplied key/value pair does not appear in the
details. -/
theorem claim_C6_cex :
    ¬ (("origin", Value.str "caller")
        ∈ (YamlErrorConverter.convert_error ⟨"boom"⟩ none
            [("origin", Value.str "caller")]).details) := by
  intro h
  have hd : (YamlErrorConverter.convert_error ⟨"boom"⟩ none
      [("origin", Value.str "caller")]).details
      = [("origin", Value.str "boom")] := by
    rw [convert_error_details]
    norm_num [ContextMap.insert, String.lt_iff_toList_lt]
  rw [hd] at h
  have := List.mem_singleton.mp h
  have hv : Value.str "caller" = Value.str "boom" := congrArg Prod.snd this
  simp at hv

/-- C6 (amended): the details of a direct convert call are exactly the
supplied context; in the convert_error path every caller-supplied
key/value pair whose key differs from "origin" appears in the details, an
empty supplied context yields empty details, and a non-empty supplied
context makes the details contain an "origin" entry recording the raw
error's rendering. -/
theorem claim_C6 (e : RawError) (text : String) (otext : Option String)
    (ctx : ContextMap) :
    (YamlErrorConverter.convert e text ctx).details = ctx
    ∧ (∀ k v, (k, v) ∈ ctx → k ≠ "origin"
        → (k, v) ∈ (YamlErrorConverter.convert_error e otext ctx).details)
    ∧ (ctx = [] → (YamlErrorConverter.convert_error e otext ctx).details = [])
    ∧ (ctx ≠ [] → ("origin", Value.str e.rendering)
        ∈ (YamlErrorConverter.convert_error e otext ctx).details) := by
  refine ⟨rfl, ?_, ?_, ?_⟩
  · intro k v hkv hne
    rw [convert_error_details]
    by_cases hc : ctx.isEmpty
    · rw [if_pos hc]; exact hkv
    · rw [if_neg hc]
      exact ContextMap.mem_insert_of_ne _ _ hkv hne
  · intro hctx
    subst hctx
    rfl
  · intro hne
    rw [convert_error_details]
    have hc : ¬ ctx.isEmpty = true := by
      simpa [List.isEmpty_iff] using hne
    rw [if_neg hc]
    exact ContextMap.mem_insert_self ctx _ _

/-- Witness for C6 at the test's concrete input: context with key "file"
mapped to "config.yaml" and a raw error rendering "boom". -/
theorem claim_C6_witness :
    ("file", Value.str "config.yaml")
      ∈ (YamlErrorConverter.convert_error ⟨"boom"⟩ none
          [("file", Value.str "config.yaml")]).details
    ∧ ("origin", Value.str "boom")
      ∈ (YamlErrorConverter.convert_error ⟨"boom"⟩ none
          [("file", Value.str "config.yaml")]).details :=
  ⟨(claim_C6 ⟨"boom"⟩ "m" none [("file", Value.str "config.yaml")]).2.1
      "file" (Value.str "config.yaml") (List.mem_singleton.mpr rfl) (by decide),
   (claim_C6 ⟨"boom"⟩ "m" none [("file", Value.str "config.yaml")]).2.2.2
      (by simp)⟩

/-- C7: the converter is total and pure: for every raw error, message and
context it is defined and equal to exactly the constructed record — it
never fails and builds nothing beyond the returned value. -/
theorem claim_C7 (e : RawError) (text : String) (ctx : ContextMap) :
    YamlErrorConverter.convert e text ctx
      = { code := "YAML-00001", status := 400, kind := "Invalid YAML data",
          message := text, details := ctx } := rfl

/-- C8: converting the same raw failure twice with the same message and
context yields typed errors with identical code, status, message and
details. -/
theorem claim_C8 (e1 e2 : RawError) (t1 t2 : Option String)
    (c1 c2 : ContextMap) (he : e1 = e2) (ht : t1 = t2) (hc : c1 = c2) :
    (YamlErrorConverter.convert_error e1 t1 c1).code
        = (YamlErrorConverter.convert_error e2 t2 c2).code
    ∧ (YamlErrorConverter.convert_error e1 t1 c1).status
        = (YamlErrorConverter.convert_error e2 t2 c2).status
    ∧ (YamlErrorConverter.convert_error e1 t1 c1).message
        = (YamlErrorConverter.convert_error e2 t2 c2).message
    ∧ (YamlErrorConverter.convert_error e1 t1 c1).details
        = (YamlErrorConverter.convert_error e2 t2 c2).details := by
  subst he; subst ht; subst hc
  exact ⟨rfl, rfl, rfl, rfl⟩

/-- Witness for C8 at a concrete repeated invocation. -/
theorem claim_C8_witness :
    (YamlErrorConverter.convert_error ⟨"bad"⟩ none []).code
        = (YamlErrorConverter.convert_error ⟨"bad"⟩ none []).code
    ∧ (YamlErrorConverter.convert_error ⟨"bad"⟩ none []).status
        = (YamlErrorConverter.convert_error ⟨"bad"⟩ none []).status
    ∧ (YamlErrorConverter.convert_error ⟨"bad"⟩ none []).message
        = (YamlErrorConverter.convert_error ⟨"bad"⟩ none []).message
    ∧ (YamlErrorConverter.convert_error ⟨"bad"⟩ none []).details
        = (YamlErrorConverter.convert_error ⟨"bad"⟩ none []).details :=
  claim_C8 ⟨"bad"⟩ ⟨"bad"⟩ none none [] [] rfl rfl rfl

/-- C9: convert ignores the raw error entirely: for any two raw errors
and the same message and context it produces equal typed errors. -/
theorem claim_C9 (e1 e2 : RawError) (text : String) (ctx : ContextMap) :
    YamlErrorConverter.convert e1 text ctx
      = YamlErrorConverter.convert e2 text ctx := rfl

/-- C10: the three-argument call shape always wraps the message as Some,
so the raw error's rendering is never used as a fallback and an empty
supplied message yields a typed error whose message is the empty string. -/
theorem claim_C10 (e : RawError) (ctx : ContextMap) (text : String) :
    (∃ r, convert_yaml_result3 (Except.error e : Except RawError Unit) ctx text = Except.error r
      ∧ r.message = text)
    ∧ (∃ r, convert_yaml_result3 (Except.error e : Except RawError Unit) ctx "" = Except.error r
      ∧ r.message = "") :=
  ⟨⟨_, rfl, rfl⟩, ⟨_, rfl, rfl⟩⟩

end CdumayYaml
